import Mathlib

/-!
Shallow embedding of `src/main.py` (CHA₂DS₂-VASc score calculator).

The source is a FastAPI app with one pydantic input schema
(`ChadsVascFormInput`), an output schema (`ChadsVascFormOutput`) and one
endpoint (`calculate_cha2ds2_vasc`).  The pydantic schema validates the raw
form fields (age in [1,150], biological sex one of three string literals,
five booleans defaulting to `False`); the endpoint then computes the score
by pure integer arithmetic.  We model the raw form, the field validation,
the validated record, and the scoring function.
-/

/-- The `Literal["male", "female", "intersex"]` type of `biological_sex`
(`src/main.py` line 33). -/
inductive BiologicalSex where
  | male
  | female
  | intersex
deriving DecidableEq, Repr

/-- The validated input record `ChadsVascFormInput` (`src/main.py` lines
23-67): age as a Python int, the sex literal, and five booleans. -/
structure ChadsVascFormInput where
  age : Int
  biological_sex : BiologicalSex
  congestive_heart_failure : Bool
  hypertension : Bool
  stroke_tia : Bool
  vascular_disease : Bool
  diabetes : Bool
deriving DecidableEq, Repr

/-- The output schema `ChadsVascFormOutput` (`src/main.py` lines 70-78). -/
structure ChadsVascFormOutput where
  score : Int
deriving DecidableEq, Repr

/-- The raw form as submitted, before pydantic validation: `age` is any
integer, `biological_sex` an arbitrary string, and each boolean field may be
absent (`none`), in which case the schema default `False` applies
(`src/main.py` lines 38-67, `default=False`). -/
structure RawForm where
  age : Int
  biological_sex : String
  congestive_heart_failure : Option Bool
  hypertension : Option Bool
  stroke_tia : Option Bool
  vascular_disease : Option Bool
  diabetes : Option Bool
deriving DecidableEq, Repr

/-- Pydantic's validation error (HTTP 422), tagged with the offending
field. -/
inductive InputValidationError where
  | invalidAge
  | invalidBiologicalSex
deriving DecidableEq, Repr

/-- Validation of the `Literal["male", "female", "intersex"]` annotation on
`biological_sex` (`src/main.py` line 33): exactly the three string literals
are accepted. -/
def parseBiologicalSex (s : String) : Option BiologicalSex :=
  if s = "male" then some BiologicalSex.male
  else if s = "female" then some BiologicalSex.female
  else if s = "intersex" then some BiologicalSex.intersex
  else none

/-- Pydantic validation of the whole form (`src/main.py` lines 23-67):
`age` must satisfy `ge=1, le=150`; `biological_sex` must be one of the three
literals; each boolean defaults to `False` when absent.  On failure an
`InputValidationError` is raised and no record is built. -/
def validateForm (raw : RawForm) : Except InputValidationError ChadsVascFormInput :=
  if 1 ≤ raw.age ∧ raw.age ≤ 150 then
    match parseBiologicalSex raw.biological_sex with
    | some sex =>
        Except.ok
          { age := raw.age
            biological_sex := sex
            congestive_heart_failure := raw.congestive_heart_failure.getD false
            hypertension := raw.hypertension.getD false
            stroke_tia := raw.stroke_tia.getD false
            vascular_disease := raw.vascular_disease.getD false
            diabetes := raw.diabetes.getD false }
    | none => Except.error InputValidationError.invalidBiologicalSex
  else Except.error InputValidationError.invalidAge

/-- The age tier computed first in the endpoint (`src/main.py` lines
96-101): `2` if `age >= 75`, `1` if `65 <= age < 75`, else `0`. -/
def agePoints (age : Int) : Int :=
  if age ≥ 75 then 2
  else if 65 ≤ age ∧ age < 75 then 1
  else 0

/-- The endpoint body `calculate_cha2ds2_vasc` (`src/main.py` lines
86-113): sums the age tier and the six conditional contributions and wraps
the result in `ChadsVascFormOutput`. -/
def calculate_cha2ds2_vasc (data : ChadsVascFormInput) : ChadsVascFormOutput :=
  { score :=
      agePoints data.age +
      (if data.biological_sex = BiologicalSex.female then 1 else 0) +
      (if data.congestive_heart_failure then 1 else 0) +
      (if data.hypertension then 1 else 0) +
      (if data.stroke_tia then 2 else 0) +
      (if data.vascular_disease then 1 else 0) +
      (if data.diabetes then 1 else 0) }

/-- The full request path for `POST /calculate`: validate the raw form,
then score; on validation failure the error is returned and no score is
computed. -/
def handleCalculate (raw : RawForm) : Except InputValidationError ChadsVascFormOutput :=
  (validateForm raw).map calculate_cha2ds2_vasc

/-- A record is valid exactly when its age lies in [1,150]; the remaining
fields are already constrained by their types. -/
def validRecord (data : ChadsVascFormInput) : Prop :=
  1 ≤ data.age ∧ data.age ≤ 150

instance (data : ChadsVascFormInput) : Decidable (validRecord data) := by
  unfold validRecord; infer_instance

/-- The spec's scoring formula, written from the words of the spec's
algorithm table: 2 points if age ≥ 75, 1 point if 65 ≤ age < 75, 0 points
if age < 65; plus 1 if female; plus 1 for congestive heart failure; plus 1
for hypertension; plus 2 for stroke/TIA; plus 1 for vascular disease; plus
1 for diabetes. -/
def specScore (data : ChadsVascFormInput) : Int :=
  (if data.age ≥ 75 then 2
   else if 65 ≤ data.age ∧ data.age < 75 then 1
   else 0) +
  (if data.biological_sex = BiologicalSex.female then 1 else 0) +
  (if data.congestive_heart_failure then 1 else 0) +
  (if data.hypertension then 1 else 0) +
  (if data.stroke_tia then 2 else 0) +
  (if data.vascular_disease then 1 else 0) +
  (if data.diabetes then 1 else 0)

/-! ## Helper lemmas -/

theorem agePoints_nonneg (a : Int) : 0 ≤ agePoints a := by
  unfold agePoints; split_ifs <;> omega

theorem agePoints_le_two (a : Int) : agePoints a ≤ 2 := by
  unfold agePoints; split_ifs <;> omega

theorem agePoints_mono {a b : Int} (h : a ≤ b) : agePoints a ≤ agePoints b := by
  unfold agePoints; split_ifs <;> omega

/-! ## Claims -/

/-- C1: for every validated input record, the computed score equals the
spec's sum of point contributions (three-tier age points, 1 for female,
1 for CHF, 1 for hypertension, 2 for stroke/TIA, 1 for vascular disease,
1 for diabetes). -/
theorem C1_score_matches_spec_formula (data : ChadsVascFormInput)
    (h : validRecord data) :
    (calculate_cha2ds2_vasc data).score = specScore data := by
  unfold calculate_cha2ds2_vasc specScore agePoints
  rfl

theorem C1_witness :
    validRecord
        { age := 80, biological_sex := BiologicalSex.female,
          congestive_heart_failure := true, hypertension := false,
          stroke_tia := true, vascular_disease := false, diabetes := false } ∧
      (calculate_cha2ds2_vasc
          { age := 80, biological_sex := BiologicalSex.female,
            congestive_heart_failure := true, hypertension := false,
            stroke_tia := true, vascular_disease := false, diabetes := false }).score
        = specScore
            { age := 80, biological_sex := BiologicalSex.female,
              congestive_heart_failure := true, hypertension := false,
              stroke_tia := true, vascular_disease := false, diabetes := false } :=
  ⟨by decide, C1_score_matches_spec_formula _ (by decide)⟩

/-- C2: the score decomposes as the age tier plus an age-independent rest,
and at the tier boundaries the age contribution is: age 64 gives 0,
age 65 gives 1, age 74 gives 1, age 75 gives 2. -/
theorem C2_age_tier_boundaries :
    (∀ (data : ChadsVascFormInput) (a : Int),
        (calculate_cha2ds2_vasc { data with age := a }).score
          = agePoints a + (calculate_cha2ds2_vasc { data with age := 0 }).score) ∧
      agePoints 64 = 0 ∧ agePoints 65 = 1 ∧ agePoints 74 = 1 ∧ agePoints 75 = 2 := by
  refine ⟨?_, by decide, by decide, by decide, by decide⟩
  intro data a
  have h0 : agePoints 0 = 0 := by decide
  simp only [calculate_cha2ds2_vasc, h0]
  ring

/-- C3: for every valid input the score lies in [0, 9], and 9 is attained
at age ≥ 75, female, with all five risk factors true. -/
theorem C3_score_bounds (data : ChadsVascFormInput) (h : validRecord data) :
    (0 ≤ (calculate_cha2ds2_vasc data).score ∧
        (calculate_cha2ds2_vasc data).score ≤ 9) ∧
      (calculate_cha2ds2_vasc
          { age := 80, biological_sex := BiologicalSex.female,
            congestive_heart_failure := true, hypertension := true,
            stroke_tia := true, vascular_disease := true, diabetes := true }).score
        = 9 := by
  refine ⟨?_, by decide⟩
  have h1 := agePoints_nonneg data.age
  have h2 := agePoints_le_two data.age
  simp only [calculate_cha2ds2_vasc]
  constructor <;> split_ifs <;> omega

theorem C3_witness :
    validRecord
        { age := 30, biological_sex := BiologicalSex.male,
          congestive_heart_failure := false, hypertension := false,
          stroke_tia := false, vascular_disease := false, diabetes := false } ∧
      (0 ≤ (calculate_cha2ds2_vasc
              { age := 30, biological_sex := BiologicalSex.male,
                congestive_heart_failure := false, hypertension := false,
                stroke_tia := false, vascular_disease := false,
                diabetes := false }).score ∧
          (calculate_cha2ds2_vasc
              { age := 30, biological_sex := BiologicalSex.male,
                congestive_heart_failure := false, hypertension := false,
                stroke_tia := false, vascular_disease := false,
                diabetes := false }).score ≤ 9) ∧
        (calculate_cha2ds2_vasc
            { age := 80, biological_sex := BiologicalSex.female,
              congestive_heart_failure := true, hypertension := true,
              stroke_tia := true, vascular_disease := true, diabetes := true }).score
          = 9 :=
  ⟨by decide, C3_score_bounds _ (by decide)⟩

/-- C4: validation rejects every age outside [1,150] with an
`InputValidationError` and no score is computed on rejection; every age in
[1,150] passes the age check (the whole form validates whenever the sex
string is also one of the accepted literals). -/
theorem C4_age_validation (raw : RawForm) :
    (¬(1 ≤ raw.age ∧ raw.age ≤ 150) →
        handleCalculate raw = Except.error InputValidationError.invalidAge) ∧
      ((1 ≤ raw.age ∧ raw.age ≤ 150) →
        (parseBiologicalSex raw.biological_sex).isSome →
        (validateForm raw).isOk = true) := by
  constructor
  · intro hbad
    simp only [handleCalculate, validateForm, if_neg hbad, Except.map]
  · intro hage hsex
    rw [Option.isSome_iff_exists] at hsex
    obtain ⟨sex, hsex⟩ := hsex
    simp only [validateForm, if_pos hage, hsex, Except.isOk, Except.toBool]

theorem C4_witness :
    (¬(1 ≤ (0 : Int) ∧ (0 : Int) ≤ 150) ∧
        handleCalculate
            { age := 0, biological_sex := "male",
              congestive_heart_failure := none, hypertension := none,
              stroke_tia := none, vascular_disease := none, diabetes := none }
          = Except.error InputValidationError.invalidAge) ∧
      (¬(1 ≤ (151 : Int) ∧ (151 : Int) ≤ 150) ∧
        handleCalculate
            { age := 151, biological_sex := "male",
              congestive_heart_failure := none, hypertension := none,
              stroke_tia := none, vascular_disease := none, diabetes := none }
          = Except.error InputValidationError.invalidAge) ∧
      (validateForm
          { age := 150, biological_sex := "female",
            congestive_heart_failure := none, hypertension := none,
            stroke_tia := none, vascular_disease := none, diabetes := none }).isOk
        = true :=
  ⟨⟨by decide,
      (C4_age_validation
          { age := 0, biological_sex := "male",
            congestive_heart_failure := none, hypertension := none,
            stroke_tia := none, vascular_disease := none, diabetes := none }).1
        (by decide)⟩,
    ⟨by decide,
      (C4_age_validation
          { age := 151, biological_sex := "male",
            congestive_heart_failure := none, hypertension := none,
            stroke_tia := none, vascular_disease := none, diabetes := none }).1
        (by decide)⟩,
    (C4_age_validation
        { age := 150, biological_sex := "female",
          congestive_heart_failure := none, hypertension := none,
          stroke_tia := none, vascular_disease := none, diabetes := none }).2
      (by decide) (by decide)⟩

/-- C5: the sex literal check accepts exactly "male", "female" and
"intersex"; any other string is rejected with an `InputValidationError`
(given an in-range age, so that the age check does not mask it). -/
theorem C5_sex_validation (raw : RawForm) (hage : 1 ≤ raw.age ∧ raw.age ≤ 150) :
    (parseBiologicalSex raw.biological_sex = none ↔
        raw.biological_sex ≠ "male" ∧ raw.biological_sex ≠ "female" ∧
          raw.biological_sex ≠ "intersex") ∧
      ((validateForm raw).isOk = true ↔
        raw.biological_sex = "male" ∨ raw.biological_sex = "female" ∨
          raw.biological_sex = "intersex") ∧
      (raw.biological_sex ≠ "male" → raw.biological_sex ≠ "female" →
        raw.biological_sex ≠ "intersex" →
        handleCalculate raw
          = Except.error InputValidationError.invalidBiologicalSex) := by
  refine ⟨?_, ?_, ?_⟩
  · unfold parseBiologicalSex
    split_ifs <;> simp_all
  · simp only [validateForm, if_pos hage]
    unfold parseBiologicalSex
    split_ifs <;> simp_all [Except.isOk, Except.toBool]
  · intro h1 h2 h3
    simp only [handleCalculate, validateForm, if_pos hage]
    unfold parseBiologicalSex
    rw [if_neg h1, if_neg h2, if_neg h3]
    rfl

theorem C5_witness :
    (parseBiologicalSex "other" = none ↔
        ("other" : String) ≠ "male" ∧ ("other" : String) ≠ "female" ∧
          ("other" : String) ≠ "intersex") ∧
      ((validateForm
            { age := 40, biological_sex := "other",
              congestive_heart_failure := none, hypertension := none,
              stroke_tia := none, vascular_disease := none,
              diabetes := none }).isOk = true ↔
        ("other" : String) = "male" ∨ ("other" : String) = "female" ∨
          ("other" : String) = "intersex") ∧
      (("other" : String) ≠ "male" → ("other" : String) ≠ "female" →
        ("other" : String) ≠ "intersex" →
        handleCalculate
            { age := 40, biological_sex := "other",
              congestive_heart_failure := none, hypertension := none,
              stroke_tia := none, vascular_disease := none, diabetes := none }
          = Except.error InputValidationError.invalidBiologicalSex) :=
  C5_sex_validation
    { age := 40, biological_sex := "other",
      congestive_heart_failure := none, hypertension := none,
      stroke_tia := none, vascular_disease := none, diabetes := none }
    (by decide)

/-- C6: the calculator is deterministic and total: any two validated
records with identical field values yield identical outputs, and every
record yields exactly one output (no failure mode after validation). -/
theorem C6_deterministic (d₁ d₂ : ChadsVascFormInput)
    (hage : d₁.age = d₂.age)
    (hsex : d₁.biological_sex = d₂.biological_sex)
    (hchf : d₁.congestive_heart_failure = d₂.congestive_heart_failure)
    (hht : d₁.hypertension = d₂.hypertension)
    (hst : d₁.stroke_tia = d₂.stroke_tia)
    (hvd : d₁.vascular_disease = d₂.vascular_disease)
    (hdb : d₁.diabetes = d₂.diabetes) :
    calculate_cha2ds2_vasc d₁ = calculate_cha2ds2_vasc d₂ ∧
      ∃! out, calculate_cha2ds2_vasc d₁ = out := by
  cases d₁
  cases d₂
  subst hage hsex hchf hht hst hvd hdb
  exact ⟨rfl, _, rfl, fun _ h => h.symm⟩

theorem C6_witness :
    calculate_cha2ds2_vasc
        { age := 70, biological_sex := BiologicalSex.intersex,
          congestive_heart_failure := false, hypertension := false,
          stroke_tia := false, vascular_disease := false, diabetes := true }
      = calculate_cha2ds2_vasc
          { age := 70, biological_sex := BiologicalSex.intersex,
            congestive_heart_failure := false, hypertension := false,
            stroke_tia := false, vascular_disease := false, diabetes := true } ∧
      ∃! out,
        calculate_cha2ds2_vasc
            { age := 70, biological_sex := BiologicalSex.intersex,
              congestive_heart_failure := false, hypertension := false,
              stroke_tia := false, vascular_disease := false, diabetes := true }
          = out :=
  C6_deterministic _ _ rfl rfl rfl rfl rfl rfl rfl

/-- C7: the scenario age 80, female, CHF true, hypertension false,
stroke/TIA true, vascular disease false, diabetes false passes validation
and yields score 6. -/
theorem C7_scenario_score_six :
    handleCalculate
        { age := 80, biological_sex := "female",
          congestive_heart_failure := some true, hypertension := some false,
          stroke_tia := some true, vascular_disease := some false,
          diabetes := some false }
      = Except.ok { score := 6 } := by
  rfl

/-- C8: each of the five boolean fields defaults to false when absent: a
form with a boolean field absent is handled identically to the same form
with the field explicitly false, and a form with all five absent validates
to a record whose five booleans are all false. -/
theorem C8_boolean_defaults (raw : RawForm) :
    (handleCalculate { raw with congestive_heart_failure := none }
        = handleCalculate { raw with congestive_heart_failure := some false } ∧
      handleCalculate { raw with hypertension := none }
        = handleCalculate { raw with hypertension := some false } ∧
      handleCalculate { raw with stroke_tia := none }
        = handleCalculate { raw with stroke_tia := some false } ∧
      handleCalculate { raw with vascular_disease := none }
        = handleCalculate { raw with vascular_disease := some false } ∧
      handleCalculate { raw with diabetes := none }
        = handleCalculate { raw with diabetes := some false }) ∧
      ∀ rec,
        validateForm
            { raw with
                congestive_heart_failure := none
                hypertension := none
                stroke_tia := none
                vascular_disease := none
                diabetes := none }
          = Except.ok rec →
        rec.congestive_heart_failure = false ∧ rec.hypertension = false ∧
          rec.stroke_tia = false ∧ rec.vascular_disease = false ∧
          rec.diabetes = false := by
  constructor
  · refine ⟨?_, ?_, ?_, ?_, ?_⟩ <;>
      · simp only [handleCalculate, validateForm]
        split
        · split <;> rfl
        · rfl
  · intro rec hrec
    simp only [validateForm] at hrec
    split at hrec
    · split at hrec
      · cases hrec
        exact ⟨rfl, rfl, rfl, rfl, rfl⟩
      · cases hrec
    · cases hrec

theorem C8_witness :
    (handleCalculate
          { age := 30, biological_sex := "male",
            congestive_heart_failure := none, hypertension := some true,
            stroke_tia := none, vascular_disease := none, diabetes := none }
        = handleCalculate
            { age := 30, biological_sex := "male",
              congestive_heart_failure := some false, hypertension := some true,
              stroke_tia := none, vascular_disease := none, diabetes := none }) ∧
      ({ age := 30, biological_sex := BiologicalSex.male,
          congestive_heart_failure := false, hypertension := false,
          stroke_tia := false, vascular_disease := false,
          diabetes := false } : ChadsVascFormInput).congestive_heart_failure
          = false ∧
        ({ age := 30, biological_sex := BiologicalSex.male,
            congestive_heart_failure := false, hypertension := false,
            stroke_tia := false, vascular_disease := false,
            diabetes := false } : ChadsVascFormInput).hypertension = false ∧
        ({ age := 30, biological_sex := BiologicalSex.male,
            congestive_heart_failure := false, hypertension := false,
            stroke_tia := false, vascular_disease := false,
            diabetes := false } : ChadsVascFormInput).stroke_tia = false ∧
        ({ age := 30, biological_sex := BiologicalSex.male,
            congestive_heart_failure := false, hypertension := false,
            stroke_tia := false, vascular_disease := false,
            diabetes := false } : ChadsVascFormInput).vascular_disease = false ∧
        ({ age := 30, biological_sex := BiologicalSex.male,
            congestive_heart_failure := false, hypertension := false,
            stroke_tia := false, vascular_disease := false,
            diabetes := false } : ChadsVascFormInput).diabetes = false :=
  ⟨(C8_boolean_defaults
        { age := 30, biological_sex := "male",
          congestive_heart_failure := none, hypertension := some true,
          stroke_tia := none, vascular_disease := none, diabetes := none }).1.1,
    (C8_boolean_defaults
        { age := 30, biological_sex := "male",
          congestive_heart_failure := some true, hypertension := some true,
          stroke_tia := some true, vascular_disease := some true,
          diabetes := some true }).2 _ rfl⟩

/-- C9: the score is monotone in age (other fields fixed), and flipping any
single boolean risk factor from false to true raises the score by exactly
that factor's weight: 2 for stroke/TIA and 1 for each of the others. -/
theorem C9_monotonicity (data : ChadsVascFormInput) (a₁ a₂ : Int)
    (h : a₁ ≤ a₂) :
    ((calculate_cha2ds2_vasc { data with age := a₁ }).score
        ≤ (calculate_cha2ds2_vasc { data with age := a₂ }).score) ∧
      (calculate_cha2ds2_vasc { data with congestive_heart_failure := true }).score
        = (calculate_cha2ds2_vasc { data with congestive_heart_failure := false }).score + 1 ∧
      (calculate_cha2ds2_vasc { data with hypertension := true }).score
        = (calculate_cha2ds2_vasc { data with hypertension := false }).score + 1 ∧
      (calculate_cha2ds2_vasc { data with stroke_tia := true }).score
        = (calculate_cha2ds2_vasc { data with stroke_tia := false }).score + 2 ∧
      (calculate_cha2ds2_vasc { data with vascular_disease := true }).score
        = (calculate_cha2ds2_vasc { data with vascular_disease := false }).score + 1 ∧
      (calculate_cha2ds2_vasc { data with diabetes := true }).score
        = (calculate_cha2ds2_vasc { data with diabetes := false }).score + 1 := by
  refine ⟨?_, ?_, ?_, ?_, ?_, ?_⟩
  · have := agePoints_mono h
    simp only [calculate_cha2ds2_vasc]
    omega
  all_goals
    simp only [calculate_cha2ds2_vasc]
    rw [if_neg (show ¬(false = true) from by decide), if_pos (trivial : True)]
    ring

theorem C9_witness :
    ((calculate_cha2ds2_vasc
          { age := 64, biological_sex := BiologicalSex.male,
            congestive_heart_failure := false, hypertension := false,
            stroke_tia := false, vascular_disease := false,
            diabetes := false }).score
        ≤ (calculate_cha2ds2_vasc
            { age := 75, biological_sex := BiologicalSex.male,
              congestive_heart_failure := false, hypertension := false,
              stroke_tia := false, vascular_disease := false,
              diabetes := false }).score) ∧
      (calculate_cha2ds2_vasc
          { age := 64, biological_sex := BiologicalSex.male,
            congestive_heart_failure := true, hypertension := false,
            stroke_tia := false, vascular_disease := false,
            diabetes := false }).score
        = (calculate_cha2ds2_vasc
            { age := 64, biological_sex := BiologicalSex.male,
              congestive_heart_failure := false, hypertension := false,
              stroke_tia := false, vascular_disease := false,
              diabetes := false }).score + 1 ∧
      (calculate_cha2ds2_vasc
          { age := 64, biological_sex := BiologicalSex.male,
            congestive_heart_failure := false, hypertension := true,
            stroke_tia := false, vascular_disease := false,
            diabetes := false }).score
        = (calculate_cha2ds2_vasc
            { age := 64, biological_sex := BiologicalSex.male,
              congestive_heart_failure := false, hypertension := false,
              stroke_tia := false, vascular_disease := false,
              diabetes := false }).score + 1 ∧
      (calculate_cha2ds2_vasc
          { age := 64, biological_sex := BiologicalSex.male,
            congestive_heart_failure := false, hypertension := false,
            stroke_tia := true, vascular_disease := false,
            diabetes := false }).score
        = (calculate_cha2ds2_vasc
            { age := 64, biological_sex := BiologicalSex.male,
              congestive_heart_failure := false, hypertension := false,
              stroke_tia := false, vascular_disease := false,
              diabetes := false }).score + 2 ∧
      (calculate_cha2ds2_vasc
          { age := 64, biological_sex := BiologicalSex.male,
            congestive_heart_failure := false, hypertension := false,
            stroke_tia := false, vascular_disease := true,
            diabetes := false }).score
        = (calculate_cha2ds2_vasc
            { age := 64, biological_sex := BiologicalSex.male,
              congestive_heart_failure := false, hypertension := false,
              stroke_tia := false, vascular_disease := false,
              diabetes := false }).score + 1 ∧
      (calculate_cha2ds2_vasc
          { age := 64, biological_sex := BiologicalSex.male,
            congestive_heart_failure := false, hypertension := false,
            stroke_tia := false, vascular_disease := false,
            diabetes := true }).score
        = (calculate_cha2ds2_vasc
            { age := 64, biological_sex := BiologicalSex.male,
              congestive_heart_failure := false, hypertension := false,
              stroke_tia := false, vascular_disease := false,
              diabetes := false }).score + 1 :=
  C9_monotonicity
    { age := 64, biological_sex := BiologicalSex.male,
      congestive_heart_failure := false, hypertension := false,
      stroke_tia := false, vascular_disease := false, diabetes := false }
    64 75 (by decide)

/-- C10: "male" and "intersex" are score-equivalent with all other fields
fixed; only "female" adds the sex point (exactly one more than "male"). -/
theorem C10_sex_equivalence (data : ChadsVascFormInput) :
    (calculate_cha2ds2_vasc { data with biological_sex := BiologicalSex.male }).score
        = (calculate_cha2ds2_vasc
            { data with biological_sex := BiologicalSex.intersex }).score ∧
      (calculate_cha2ds2_vasc
          { data with biological_sex := BiologicalSex.female }).score
        = (calculate_cha2ds2_vasc
            { data with biological_sex := BiologicalSex.male }).score + 1 := by
  constructor
  · simp only [calculate_cha2ds2_vasc]
    rw [if_neg (show BiologicalSex.male ≠ BiologicalSex.female from by decide),
      if_neg (show BiologicalSex.intersex ≠ BiologicalSex.female from by decide)]
  · simp only [calculate_cha2ds2_vasc]
    rw [if_pos (trivial : True),
      if_neg (show BiologicalSex.male ≠ BiologicalSex.female from by decide)]
    ring
